import Mathlib

/-!
Shallow embedding of `src/hardware/microwave/mw_source_windfreak.py`
(class `MicrowaveWindfreak`), the device adapter for a Windfreak
microwave source.

Modelling conventions:
* A transport write `self._usb_connection.write(cmd)` appends a `Cmd`
  (the command mnemonic from the source together with its numeric
  argument, if any) to the adapter log.  Numeric payloads are rationals
  standing for the Python floats; the textual rendering of the number
  (the format specifiers in the source) is not modelled, only which
  command with which value is sent.
* A status query `self._usb_connection.query(str)` reads the reply the
  device gives to the k-th query, where k is a counter in the state.
* Python exceptions are modelled by `Except PyErr`; each operation
  returns the state at the moment of raising together with the outcome,
  so that "no command was written before the exception" is statable.
* The instance attribute `self.internal_mode` (written, never present
  at construction: the class attribute is `_internal_mode`, a different
  name) is an `Option String`, `none` before the first assignment.
-/

namespace Windfreak

/-- One command written to the transport: the command mnemonic exactly as it
appears in the source (for example `X0`, `w1`, `E1r1`), together with its
numeric argument when the source formats one in (for example `l` followed by
a frequency).  The source template for `set_frequency` additionally appends
the literal suffix MHz after the number; suffixes are not modelled. -/
structure Cmd where
  mnemonic : String
  arg : Option ℚ
deriving DecidableEq

/-- Python exception kinds raised by the adapter code. -/
inductive PyErr where
  | typeError (msg : String)
  | valueError (msg : String)
  | attributeError (msg : String)
  | indexError (msg : String)
deriving DecidableEq

/-- Adapter-side state: the ordered log of commands written to the transport,
the `self.internal_mode` instance attribute, and how many device queries have
been issued so far. -/
structure MWState where
  log : List Cmd
  internal_mode : Option String
  statusCount : Nat
deriving DecidableEq

/-- The initial adapter state: nothing written, `self.internal_mode` not yet
assigned, no queries issued. -/
def init : MWState := ⟨[], none, 0⟩

/-- The simulated device: `statusReply k` is the raw reply the device gives
to the k-th `r?` status query. -/
structure Device where
  statusReply : Nat → String

/-- Append one command to the transport log (a `self._usb_connection.write`). -/
def write (s : MWState) (c : Cmd) : MWState :=
  ⟨s.log ++ [c], s.internal_mode, s.statusCount⟩

/-- Assignment `self.internal_mode = m`. -/
def setMode (s : MWState) (m : String) : MWState :=
  ⟨s.log, some m, s.statusCount⟩

/-- Supported output modes, from the abstract interface. -/
inductive MicrowaveMode where
  | CW | LIST | SWEEP
deriving DecidableEq

/-- External trigger edge enumeration from the abstract interface; `UNKNOWN`
stands for any unsupported polarity value (the `else` branch in the source). -/
inductive TriggerEdge where
  | RISING | FALLING | UNKNOWN
deriving DecidableEq

/-- The static capability descriptor built by `get_limits` (source lines
44-61). -/
structure MicrowaveLimits where
  supported_modes : List MicrowaveMode
  min_frequency : ℚ
  max_frequency : ℚ
  min_power : ℚ
  max_power : ℚ
  list_minstep : ℚ
  list_maxstep : ℚ
  list_maxentries : Nat
  sweep_minstep : ℚ
  sweep_maxstep : ℚ
  sweep_maxentries : Nat
deriving DecidableEq

/-- Source lines 44-61: the constant limits object for this model. -/
def get_limits : MicrowaveLimits :=
  ⟨[MicrowaveMode.CW, MicrowaveMode.LIST, MicrowaveMode.SWEEP],
   54000000, 13600000000, -50, 20,
   1/10, 13500000000, 100,
   1/10, 13500000000, 10001⟩

/-- Source lines 63-71: `on` writes `E1r1` and returns 0 (named `on_` here
because `on` is a reserved word in Lean). -/
def on_ (s : MWState) : MWState × Except PyErr Int :=
  (write s ⟨"E1r1", none⟩, .ok 0)

/-- Source lines 73-80: `off` writes `E0r0` and returns 0. -/
def off (s : MWState) : MWState × Except PyErr Int :=
  (write s ⟨"E0r0", none⟩, .ok 0)

/-- Python `str.strip()`: drop leading and trailing whitespace. -/
def pyStrip (s : String) : List Char :=
  ((s.data.dropWhile Char.isWhitespace).reverse.dropWhile Char.isWhitespace).reverse

/-- Accumulate a run of decimal digits into a natural number; `none` on the
first non-digit character. -/
def digitsVal (l : List Char) (acc : Nat) : Option Nat :=
  match l with
  | [] => some acc
  | c :: rest => if c.isDigit then digitsVal rest (acc * 10 + (c.toNat - 48)) else none

/-- Python `int(reply.strip())` on a decimal string literal: strip the reply,
then an optional sign followed by at least one digit; `none` models the
ValueError `int()` raises otherwise. -/
def pyInt? (s : String) : Option Int :=
  match pyStrip s with
  | [] => none
  | '-' :: rest =>
    match rest with
    | [] => none
    | _ => (digitsVal rest 0).map (fun n => -(n : Int))
  | '+' :: rest =>
    match rest with
    | [] => none
    | _ => (digitsVal rest 0).map (fun n => (n : Int))
  | l => (digitsVal l 0).map (fun n => (n : Int))

/-- Python `bool(int(reply.strip()))`: parse the stripped reply as an integer
(ValueError when it is not one) and test it against zero. -/
def parseStatusReply (r : String) : Except PyErr Bool :=
  match pyInt? r with
  | some n => .ok (n != 0)
  | none => .error (.valueError "invalid literal for int")

/-- Source lines 81-91: the body of the `get_status` property getter.  It
issues one `r?` query (the counter is bumped even when the parse then fails),
parses the running flag as a 0/1 boolean from the fresh reply, and returns
the hard-coded literal mode string sweep together with that flag; the
adapter-local `internal_mode` attribute is never consulted. -/
def get_status (dev : Device) (s : MWState) : MWState × Except PyErr (String × Bool) :=
  match parseStatusReply (dev.statusReply s.statusCount) with
  | .ok b => (⟨s.log, s.internal_mode, s.statusCount + 1⟩, .ok ("sweep", b))
  | .error e => (⟨s.log, s.internal_mode, s.statusCount + 1⟩, .error e)

/-- The expression `self.get_status()` as it appears in `cw_on` (line 139)
and `set_cw` (line 160).  Because `get_status` is declared a property
(line 81), the attribute access already runs the getter, with its side
effect (the `r?` query) and its possible ValueError; when the getter
succeeds it yields the tuple, and calling a tuple raises TypeError.  So
this expression always raises: the result is the state at the raise plus
the exception. -/
def get_status_call (dev : Device) (s : MWState) : MWState × PyErr :=
  match get_status dev s with
  | (s1, .ok _) => (s1, .typeError "tuple object is not callable")
  | (s1, .error e) => (s1, e)

/-- Source lines 100-111.  `set_power` writes `W` with the value and returns
0 whenever the argument is not None, and returns -1 (writing nothing) only
when it is None. -/
def set_power (s : MWState) (power : Option ℚ) : MWState × Except PyErr Int :=
  match power with
  | some p => (write s ⟨"W", some p⟩, .ok 0)
  | none => (s, .ok (-1))

/-- Invocation of `set_power` with no argument: the default in the source
signature is `power=0.`, not None, so this is `set_power` at 0. -/
def set_power_default (s : MWState) : MWState × Except PyErr Int :=
  set_power s (some 0)

/-- Source lines 120-131.  `set_frequency` writes `f` with the value (the
source renders it in scientific notation with an MHz suffix) and returns 0
whenever the argument is not None, and returns -1 (writing nothing) when it
is None. -/
def set_frequency (s : MWState) (freq : Option ℚ) : MWState × Except PyErr Int :=
  match freq with
  | some f => (write s ⟨"f", some f⟩, .ok 0)
  | none => (s, .ok (-1))

/-- Invocation of `set_frequency` with no argument: the source default is
`freq=None`. -/
def set_frequency_default (s : MWState) : MWState × Except PyErr Int :=
  set_frequency s none

/-- Source lines 132-157.  The first statement of the body,
`is_running = self.get_status()`, is the property-call expression, which
always raises (TypeError when the getter succeeded, its ValueError
otherwise); every later line, including both `E1e1` enable writes, the
dereference of the undefined name-mangled `self.__usb_connection`
(line 150), the poll loop with its 200ms sleeps, and the `return 0`, is
unreachable. -/
def cw_on (dev : Device) (s : MWState) : MWState × Except PyErr Int :=
  ((get_status_call dev s).1, .error (get_status_call dev s).2)

/-- Source lines 158-184.  Identically to `cw_on`, the first statement
`is_running = self.get_status()` raises, so the stop/enable/frequency/power
writes and the read-back of actual values are unreachable and `set_cw`
never returns its (frequency, power, mode) tuple. -/
def set_cw (dev : Device) (s : MWState) (frequency power : Option ℚ) :
    MWState × Except PyErr (ℚ × ℚ × String) :=
  ((get_status_call dev s).1, .error (get_status_call dev s).2)

/-- Source lines 186-224.  `set_list` computes `n = len(freq)`, writes `X0`,
writes the lower bound `l` with the first entry and the upper bound `u` with
the last entry (IndexError after the `X0` write when the list is empty),
writes the entry count `s`, the dwell `t` 10.00, the power value to both
bound-power commands `[` and `]`, then `^1` and `g1`, sets
`self.internal_mode` to list and returns 0. -/
def set_list (s : MWState) (freq : List ℚ) (power : ℚ) : MWState × Except PyErr Int :=
  let n := freq.length
  let s1 := write s ⟨"X0", none⟩
  match freq.head?, freq.getLast? with
  | some f0, some fl =>
    let s2 := write s1 ⟨"l", some f0⟩
    let s3 := write s2 ⟨"u", some fl⟩
    let s4 := write s3 ⟨"s", some (n : ℚ)⟩
    let s5 := write s4 ⟨"t", some 10⟩
    let s6 := write s5 ⟨"[", some power⟩
    let s7 := write s6 ⟨"]", some power⟩
    let s8 := write s7 ⟨"^1", none⟩
    let s9 := write s8 ⟨"g1", none⟩
    (setMode s9 "list", .ok 0)
  | _, _ => (s1, .error (.indexError "list index out of range"))

/-- Source lines 226-232: `reset_listpos` writes `g0` and returns 0. -/
def reset_listpos (s : MWState) : MWState × Except PyErr Int :=
  (write s ⟨"g0", none⟩, .ok 0)

/-- Source lines 233-242: `reset_sweeppos` sets the mode attribute to sweep,
writes `g1` and returns 0. -/
def reset_sweeppos (s : MWState) : MWState × Except PyErr Int :=
  (write (setMode s "sweep") ⟨"g1", none⟩, .ok 0)

/-- Source lines 243-263.  Every write in the body goes through
`self._gpib_connection`, an attribute that is never assigned anywhere in the
class, so the first statement raises AttributeError before any command
reaches the device; no transport write happens and the method never returns
the mode string. -/
def set_sweep (s : MWState) (start stop step power : ℚ) :
    MWState × Except PyErr String :=
  (s, .error (.attributeError "_gpib_connection"))

/-- Source lines 265-272: `reset_sweep` writes `g1` then `g0` and returns 0. -/
def reset_sweep (s : MWState) : MWState × Except PyErr Int :=
  (write (write s ⟨"g1", none⟩) ⟨"g0", none⟩, .ok 0)

/-- Source lines 274-282: `sweep_on` writes `E1r1` then `g1`, sets the mode
attribute to sweep, and returns 1 with no confirmation poll. -/
def sweep_on (s : MWState) : MWState × Except PyErr Int :=
  (setMode (write (write s ⟨"E1r1", none⟩) ⟨"g1", none⟩) "sweep", .ok 1)

/-- Source lines 284-294: `list_on` sets the mode attribute to list, writes
`e1r1` then `g1`, and returns 0 with no confirmation poll. -/
def list_on (s : MWState) : MWState × Except PyErr Int :=
  (write (write (setMode s "list") ⟨"e1r1", none⟩) ⟨"g1", none⟩, .ok 0)

/-- Source lines 296-315.  `set_ext_trigger` maps RISING to the command
string `w1` and FALLING to the same command string `w1`, writes it and
returns 0; any other polarity value returns -1 without writing. -/
def set_ext_trigger (s : MWState) (pol : TriggerEdge) : MWState × Except PyErr Int :=
  match pol with
  | .RISING => (write s ⟨"w1", none⟩, .ok 0)
  | .FALLING => (write s ⟨"w1", none⟩, .ok 0)
  | .UNKNOWN => (s, .ok (-1))

/-! Helper lemmas shared by the claim theorems. -/

/-- Exact outcome of the property-call expression `self.get_status()`: one
query is issued (the counter is bumped, the log untouched) and an exception
is always the result, a TypeError when the reply parsed as an integer and
the getter hence returned its tuple, the ValueError of `int()` otherwise. -/
theorem get_status_call_spec (dev : Device) (s : MWState) :
    get_status_call dev s =
      (⟨s.log, s.internal_mode, s.statusCount + 1⟩,
        match pyInt? (dev.statusReply s.statusCount) with
        | some _ => PyErr.typeError "tuple object is not callable"
        | none => PyErr.valueError "invalid literal for int") := by
  unfold get_status_call get_status parseStatusReply
  rcases pyInt? (dev.statusReply s.statusCount) with _ | n <;> rfl

/-! Claim theorems. -/

/-- C4: every invocation of `cw_on`, `set_cw` and `set_sweep` raises an
exception and never returns a result: for `cw_on` and `set_cw` the
property-call of `get_status` raises (a TypeError once the getter has
produced its tuple, the ValueError of the parse otherwise) before any
enable command, so their logs are unchanged; `set_sweep` raises an
AttributeError on the never-assigned `_gpib_connection` before any command
reaches the device. -/
theorem c4_cw_on_set_cw_set_sweep_always_raise (dev : Device) (s : MWState)
    (frequency power : Option ℚ) (start stop step pw : ℚ) :
    (∃ e, (cw_on dev s).2 = Except.error e) ∧
    (cw_on dev s).1.log = s.log ∧
    ((cw_on dev s).2 = Except.error (PyErr.typeError "tuple object is not callable") ∨
      (cw_on dev s).2 = Except.error (PyErr.valueError "invalid literal for int")) ∧
    (∃ e, (set_cw dev s frequency power).2 = Except.error e) ∧
    (set_cw dev s frequency power).1.log = s.log ∧
    set_sweep s start stop step pw =
      (s, Except.error (PyErr.attributeError "_gpib_connection")) := by
  unfold cw_on set_cw set_sweep
  rw [get_status_call_spec]
  rcases pyInt? (dev.statusReply s.statusCount) with _ | n <;> simp

/-- C1: evaluation at the failing input of the claim.  With the device
already running in CW mode (status reply 1, adapter mode attribute cw),
`cw_on` is not a no-op returning 0: the very first statement raises a
TypeError (the `get_status` property call), after one status query and with
no command written. -/
theorem c1_cw_on_raises_when_running_cw :
    cw_on ⟨fun _ => "1"⟩ ⟨[], some "cw", 0⟩ =
      (⟨[], some "cw", 1⟩,
        Except.error (PyErr.typeError "tuple object is not callable")) := rfl

/-- C2 counterexample: against the simulated device that always replies 0
(never running), `cw_on` does terminate, but its outcome is a TypeError
raised on the first status access, after exactly one query, zero poll-loop
iterations and zero sleeps, not a timeout failure after 200ms-interval
polls. -/
theorem c2_counterexample_no_timeout_failure :
    cw_on ⟨fun _ => "0"⟩ init =
      (⟨[], none, 1⟩,
        Except.error (PyErr.typeError "tuple object is not callable")) := rfl

/-- C2 (amended): for every device whose status replies always parse to 0
(the running flag never reported true), `cw_on` terminates immediately with
a TypeError from the `get_status` property call, after exactly one status
query and before the poll loop, which is unreachable; the code has no
timeout mechanism producing a timeout failure. -/
theorem c2_cw_on_terminates_by_typeerror (dev : Device) (s : MWState)
    (h : ∀ k, pyInt? (dev.statusReply k) = some 0) :
    cw_on dev s =
      (⟨s.log, s.internal_mode, s.statusCount + 1⟩,
        Except.error (PyErr.typeError "tuple object is not callable")) := by
  unfold cw_on
  rw [get_status_call_spec, h s.statusCount]

/-- C2 witness: the concrete device replying 0 forever satisfies the
never-running hypothesis, and on it `cw_on` from the initial state yields
the TypeError after a single query. -/
theorem c2_witness :
    (∀ k : Nat, pyInt? "0" = some 0) ∧
    cw_on ⟨fun _ => "0"⟩ init =
      (⟨[], none, 1⟩,
        Except.error (PyErr.typeError "tuple object is not callable")) :=
  ⟨fun _ => rfl, c2_cw_on_terminates_by_typeerror ⟨fun _ => "0"⟩ init (fun _ => rfl)⟩

/-- C3: evaluation at a concrete input.  `set_cw` with a frequency and a
power provided does not stop, switch, write or read back anything: its
first statement, the `get_status` property call, raises a TypeError after
one status query and the method never returns its
(frequency, power, mode) result. -/
theorem c3_set_cw_raises :
    set_cw ⟨fun _ => "0"⟩ init (some 2870000000) (some (-10)) =
      (⟨[], none, 1⟩,
        Except.error (PyErr.typeError "tuple object is not callable")) := rfl

/-- C5 counterexample: `set_list` succeeds (returns 0) and records list as
the last mode written by a mode-switch operation, yet `get_status` on the
resulting state still reports the mode sweep, not list. -/
theorem c5_counterexample_mode_hardcoded :
    (set_list init [1000000000] (-10)).2 = Except.ok 0 ∧
    (set_list init [1000000000] (-10)).1.internal_mode = some "list" ∧
    (get_status ⟨fun _ => "1"⟩ (set_list init [1000000000] (-10)).1).2 =
      Except.ok ("sweep", true) ∧
    "sweep" ≠ "list" :=
  ⟨rfl, rfl, rfl, by decide⟩

/-- C5 (amended): `get_status` always returns the hard-coded literal mode
sweep, regardless of the adapter-local mode attribute, while the running
flag is freshly parsed as a 0/1 boolean from the current status-query reply
(the query counter advances on every call), not cached. -/
theorem c5_get_status_sweep_literal_fresh_flag (dev : Device) (s : MWState) (n : ℤ)
    (h : pyInt? (dev.statusReply s.statusCount) = some n) :
    get_status dev s =
      (⟨s.log, s.internal_mode, s.statusCount + 1⟩, Except.ok ("sweep", n != 0)) := by
  unfold get_status parseStatusReply
  rw [h]

/-- C5 witness: a device replying 1, queried in a state whose mode attribute
is list, yields mode sweep and running true, with the query counter
advanced. -/
theorem c5_witness :
    (pyInt? "1" = some 1) ∧
    get_status ⟨fun _ => "1"⟩ ⟨[], some "list", 0⟩ =
      (⟨[], some "list", 1⟩, Except.ok ("sweep", true)) :=
  ⟨rfl, c5_get_status_sweep_literal_fresh_flag ⟨fun _ => "1"⟩ ⟨[], some "list", 0⟩ 1 rfl⟩

/-- C6: both trigger polarities succeed, but they send the identical command
string w1 to the transport; the two encodings are not distinct. -/
theorem c6_trigger_edges_same_command :
    set_ext_trigger init TriggerEdge.RISING = (⟨[⟨"w1", none⟩], none, 0⟩, Except.ok 0) ∧
    set_ext_trigger init TriggerEdge.FALLING = (⟨[⟨"w1", none⟩], none, 0⟩, Except.ok 0) ∧
    set_ext_trigger init TriggerEdge.RISING = set_ext_trigger init TriggerEdge.FALLING :=
  ⟨rfl, rfl, rfl⟩

/-- C7: `set_list` with frequencies 1e9, 1.5e9, 2e9 and power -10 writes the
entry count 3, the lower bound 1e9 (first entry), the upper bound 2e9 (last
entry) and the power -10 to both bound-power commands, and returns 0. -/
theorem c7_set_list_concrete :
    set_list init [1000000000, 1500000000, 2000000000] (-10) =
      (⟨[⟨"X0", none⟩, ⟨"l", some 1000000000⟩, ⟨"u", some 2000000000⟩,
         ⟨"s", some 3⟩, ⟨"t", some 10⟩, ⟨"[", some (-10)⟩, ⟨"]", some (-10)⟩,
         ⟨"^1", none⟩, ⟨"g1", none⟩], some "list", 0⟩, Except.ok 0) := by
  rfl

/-- C8 counterexample: 20e9 lies above the maximum frequency of
`get_limits`, yet `set_frequency` issues the transport write and returns
the success code 0 instead of failing with an out-of-range error. -/
theorem c8_counterexample_out_of_range_write :
    get_limits.max_frequency < 20000000000 ∧
    set_frequency init (some 20000000000) =
      (⟨[⟨"f", some 20000000000⟩], none, 0⟩, Except.ok 0) :=
  ⟨by decide, rfl⟩

/-- C8 (amended): the setters perform no range validation against
`get_limits`: for every out-of-range frequency and power they issue the
transport write and return the success code 0 all the same. -/
theorem c8_setters_no_validation (s : MWState) (f p : ℚ)
    (hf : f < get_limits.min_frequency ∨ get_limits.max_frequency < f)
    (hp : p < get_limits.min_power ∨ get_limits.max_power < p) :
    set_frequency s (some f) = (write s ⟨"f", some f⟩, Except.ok 0) ∧
    set_power s (some p) = (write s ⟨"W", some p⟩, Except.ok 0) :=
  ⟨rfl, rfl⟩

/-- C8 witness: frequency 20e9 and power 100 are out of range, and both
setters write and report success there. -/
theorem c8_witness :
    ((20000000000 : ℚ) < get_limits.min_frequency ∨
      get_limits.max_frequency < 20000000000) ∧
    ((100 : ℚ) < get_limits.min_power ∨ get_limits.max_power < 100) ∧
    (set_frequency init (some 20000000000) =
        (write init ⟨"f", some 20000000000⟩, Except.ok 0) ∧
      set_power init (some 100) = (write init ⟨"W", some 100⟩, Except.ok 0)) :=
  ⟨Or.inr (by decide), Or.inr (by decide),
    c8_setters_no_validation init 20000000000 100 (Or.inr (by decide)) (Or.inr (by decide))⟩

/-- C9: `set_frequency` returns the error code -1, issuing no write, exactly
in the None case (which is also the default of the source signature), and
for every provided frequency it writes the `f` command and returns 0, with
no device read-back confirming acceptance (the result does not depend on
any device). -/
theorem c9_set_frequency_none_vs_some :
    (∀ s : MWState, set_frequency s none = (s, Except.ok (-1))) ∧
    (∀ s : MWState, set_frequency_default s = (s, Except.ok (-1))) ∧
    (∀ (s : MWState) (f : ℚ),
      set_frequency s (some f) = (write s ⟨"f", some f⟩, Except.ok 0)) :=
  ⟨fun _ => rfl, fun _ => rfl, fun _ _ => rfl⟩

/-- C10 counterexample: invoked without a power argument, `set_power` does
not fail: the source default is 0., not None, so it writes `W` 0 and
returns the success code 0, which is not the error code -1. -/
theorem c10_counterexample_default_power :
    set_power_default init = (⟨[⟨"W", some 0⟩], none, 0⟩, Except.ok 0) ∧
    (Except.ok 0 : Except PyErr Int) ≠ Except.ok (-1) :=
  ⟨rfl, by simp⟩

/-- C10 (amended): `set_power` returns the error code -1 only when
explicitly passed None; invoked without an argument the power defaults to
0., so the `W` command is written with value 0 and 0 is returned; for every
provided power it writes the `W` command and returns 0. -/
theorem c10_set_power_default_zero :
    (∀ s : MWState, set_power s none = (s, Except.ok (-1))) ∧
    (∀ s : MWState, set_power_default s = (write s ⟨"W", some 0⟩, Except.ok 0)) ∧
    (∀ (s : MWState) (p : ℚ),
      set_power s (some p) = (write s ⟨"W", some p⟩, Except.ok 0)) :=
  ⟨fun _ => rfl, fun _ => rfl, fun _ _ => rfl⟩

end Windfreak
